import Mathlib

/-!
Verification of the Gantt timeline core of the projex repository
(src/src/components/GanttChart.tsx), shallowly embedded in Lean 4.

Times are embedded as rational numbers of milliseconds since the Unix
epoch, and pixel coordinates as rational numbers: the TypeScript source
computes with IEEE doubles, so every algebraic identity proved here holds
in the source within floating-point tolerance. `Date` values are their
`getTime()` milliseconds.
-/

namespace Gantt

/-- The visible time domain `[domainStart, domainEnd]` held in the
`visibleDomain` React state (GanttChart.tsx line 255), in epoch ms. -/
structure Viewport where
  domainStart : ℚ
  domainEnd : ℚ
  deriving Repr, DecidableEq

/-- `handlePan` (GanttChart.tsx lines 273-282): shifts both domain bounds
by `-deltaPx * (domainMs / xMax)`.  `xMax` is the chart's pixel width
(`width - margin.left - margin.right`). -/
def handlePan (vd : Viewport) (xMax deltaPx : ℚ) : Viewport :=
  let domainMs := vd.domainEnd - vd.domainStart
  let msPerPx := domainMs / xMax
  let deltaMs := -deltaPx * msPerPx
  ⟨vd.domainStart + deltaMs, vd.domainEnd + deltaMs⟩

/-- `handleZoom` (GanttChart.tsx lines 284-298): rescales the domain by
`1/scaleFactor` about the instant under `centerPx`. -/
def handleZoom (vd : Viewport) (xMax scaleFactor centerPx : ℚ) : Viewport :=
  let domainStart := vd.domainStart
  let domainEnd := vd.domainEnd
  let domainMs := domainEnd - domainStart
  let centerRatio := centerPx / xMax
  let centerTime := domainStart + domainMs * centerRatio
  let newDomainMs := domainMs / scaleFactor
  let newStart := centerTime - newDomainMs * centerRatio
  let newEnd := centerTime + newDomainMs * (1 - centerRatio)
  ⟨newStart, newEnd⟩

/-- The linear time-to-pixel map of visx `scaleTime` with domain
`[domainStart, domainEnd]` and range `[0, xMax]` (`zoomedXScale`,
GanttChart.tsx lines 317-323). -/
def toPixel (vd : Viewport) (xMax t : ℚ) : ℚ :=
  (t - vd.domainStart) / (vd.domainEnd - vd.domainStart) * xMax

/-- The inverse pixel-to-time map of the same linear scale
(`scaleTime().invert`). -/
def toInstant (vd : Viewport) (xMax px : ℚ) : ℚ :=
  vd.domainStart + (vd.domainEnd - vd.domainStart) * (px / xMax)

/-- Width of the visible time domain in milliseconds. -/
def domainWidth (vd : Viewport) : ℚ := vd.domainEnd - vd.domainStart

/-- C1: for every visible domain, scale factor and anchor pixel inside the
viewport, `handleZoom` keeps the instant previously under the anchor pixel
at the anchor pixel, and divides the domain width by the scale factor. -/
theorem zoomAtAnchor_preserves_anchor (vd : Viewport) (xMax scaleFactor anchorPx : ℚ)
    (hdom : vd.domainStart < vd.domainEnd) (hx : 0 < xMax) (hs : scaleFactor ≠ 0)
    (ha0 : 0 ≤ anchorPx) (ha1 : anchorPx ≤ xMax) :
    toPixel (handleZoom vd xMax scaleFactor anchorPx) xMax (toInstant vd xMax anchorPx)
      = anchorPx ∧
    domainWidth (handleZoom vd xMax scaleFactor anchorPx) = domainWidth vd / scaleFactor := by
  have hw : vd.domainEnd - vd.domainStart ≠ 0 := by linarith
  have hxne : xMax ≠ 0 := ne_of_gt hx
  constructor
  · have hw' : (vd.domainEnd - vd.domainStart) / scaleFactor ≠ 0 := div_ne_zero hw hs
    have h1 : (handleZoom vd xMax scaleFactor anchorPx).domainEnd
        - (handleZoom vd xMax scaleFactor anchorPx).domainStart
        = (vd.domainEnd - vd.domainStart) / scaleFactor := by
      simp only [handleZoom]; ring
    have h2 : toInstant vd xMax anchorPx - (handleZoom vd xMax scaleFactor anchorPx).domainStart
        = (vd.domainEnd - vd.domainStart) / scaleFactor * (anchorPx / xMax) := by
      simp only [toInstant, handleZoom]; ring
    simp only [toPixel]
    rw [h1, h2, mul_comm ((vd.domainEnd - vd.domainStart) / scaleFactor) (anchorPx / xMax),
      mul_div_assoc, div_self hw', mul_one]
    exact div_mul_cancel₀ anchorPx hxne
  · simp only [domainWidth, handleZoom]
    ring

/-- Witness for C1 at a concrete viewport, scale factor and anchor. -/
theorem zoomAtAnchor_preserves_anchor_witness :
    toPixel (handleZoom ⟨0, 3600000⟩ 1000 2 250) 1000 (toInstant ⟨0, 3600000⟩ 1000 250) = 250 ∧
    domainWidth (handleZoom ⟨0, 3600000⟩ 1000 2 250) = domainWidth ⟨0, 3600000⟩ / 2 :=
  zoomAtAnchor_preserves_anchor ⟨0, 3600000⟩ 1000 2 250 (by norm_num) (by norm_num)
    (by norm_num) (by norm_num) (by norm_num)

/-- C2: for every viewport with positive pixel width, `handlePan` shifts
both bounds by exactly `-deltaPx * (domainWidth / xMax)`, preserves the
domain width exactly, and a positive (rightward) pixel delta moves the
visible window earlier in time. -/
theorem panByPixels_shifts_and_preserves_width (vd : Viewport) (xMax deltaPx : ℚ)
    (hx : 0 < xMax) :
    (handlePan vd xMax deltaPx).domainStart
        = vd.domainStart + (-deltaPx * (domainWidth vd / xMax)) ∧
    (handlePan vd xMax deltaPx).domainEnd
        = vd.domainEnd + (-deltaPx * (domainWidth vd / xMax)) ∧
    domainWidth (handlePan vd xMax deltaPx) = domainWidth vd ∧
    (0 < deltaPx → vd.domainStart < vd.domainEnd →
      (handlePan vd xMax deltaPx).domainStart < vd.domainStart ∧
      (handlePan vd xMax deltaPx).domainEnd < vd.domainEnd) := by
  refine ⟨rfl, rfl, by simp only [domainWidth, handlePan]; ring, ?_⟩
  intro hd hdom
  have hw0 : 0 < vd.domainEnd - vd.domainStart := by linarith
  have hshift : -deltaPx * ((vd.domainEnd - vd.domainStart) / xMax) < 0 := by
    have h1 : 0 < (vd.domainEnd - vd.domainStart) / xMax := div_pos hw0 hx
    nlinarith
  constructor
  · show vd.domainStart + -deltaPx * ((vd.domainEnd - vd.domainStart) / xMax) < vd.domainStart
    linarith
  · show vd.domainEnd + -deltaPx * ((vd.domainEnd - vd.domainStart) / xMax) < vd.domainEnd
    linarith

/-- Witness for C2 at a concrete viewport and delta. -/
theorem panByPixels_shifts_and_preserves_width_witness :
    (handlePan ⟨0, 3600000⟩ 1000 10).domainStart
        = 0 + (-10 * (domainWidth ⟨0, 3600000⟩ / 1000)) ∧
    (handlePan ⟨0, 3600000⟩ 1000 10).domainEnd
        = 3600000 + (-10 * (domainWidth ⟨0, 3600000⟩ / 1000)) ∧
    domainWidth (handlePan ⟨0, 3600000⟩ 1000 10) = domainWidth ⟨0, 3600000⟩ ∧
    (0 < (10 : ℚ) → (0 : ℚ) < 3600000 →
      (handlePan ⟨0, 3600000⟩ 1000 10).domainStart < 0 ∧
      (handlePan ⟨0, 3600000⟩ 1000 10).domainEnd < 3600000) :=
  panByPixels_shifts_and_preserves_width ⟨0, 3600000⟩ 1000 10 (by norm_num)

/-- A drag operation (GanttChart.tsx line 31); the TypeScript `null` member
of the union is represented by `Option DragOperation` in the state. -/
inductive DragOperation where
  | move
  | resizeStart
  | resizeEnd
  deriving Repr, DecidableEq

/-- A renderable task tuple (GanttChart.tsx lines 22-29).  `endTime` embeds
the source field `end`, a Lean keyword.  Times are epoch ms. -/
structure GanttTask where
  id : String
  job_id : String
  name : String
  start : ℚ
  endTime : ℚ
  deriving Repr, DecidableEq

/-- The `dragStartPosition` anchor captured at pointer-down
(GanttChart.tsx line 65). -/
structure DragStartPosition where
  x : ℚ
  startDate : ℚ
  endDate : ℚ
  deriving Repr, DecidableEq

/-- The drag-related React state of the chart (GanttChart.tsx lines 63-65). -/
structure DragState where
  draggedTask : Option GanttTask
  dragOperation : Option DragOperation
  dragStartPosition : Option DragStartPosition
  deriving Repr, DecidableEq

/-- The controller state with no active drag session. -/
def idleState : DragState := ⟨none, none, none⟩

/-- `handleDragStart` (GanttChart.tsx lines 163-177): captures a copy of the
task and the anchor.  It is unconditional — the source has no guard against
an already-active session. -/
def handleDragStart (task : GanttTask) (operation : DragOperation)
    (clientX : ℚ) : DragState :=
  ⟨some task, some operation, some ⟨clientX, task.start, task.endTime⟩⟩

/-- The candidate start/end computed by `handleDrag` (GanttChart.tsx lines
339-352) from the anchor, the current `msPerPixel` and the pointer position. -/
def dragCandidate (operation : DragOperation) (pos : DragStartPosition)
    (msPerPixel clientX : ℚ) : ℚ × ℚ :=
  let deltaX := clientX - pos.x
  let deltaMs := deltaX * msPerPixel
  match operation with
  | .move => (pos.startDate + deltaMs, pos.endDate + deltaMs)
  | .resizeStart =>
      let newStart := pos.startDate + deltaMs
      (if newStart > pos.endDate then pos.endDate else newStart, pos.endDate)
  | .resizeEnd =>
      let newEnd := pos.endDate + deltaMs
      (pos.startDate, if newEnd < pos.startDate then pos.startDate else newEnd)

/-- `handleDrag` as a state update (GanttChart.tsx lines 335-358): early
return unless a task, an operation and an anchor are all present, then the
dragged task's times are overwritten with the candidate. -/
def handleDrag (st : DragState) (msPerPixel clientX : ℚ) : DragState :=
  match st.draggedTask, st.dragOperation, st.dragStartPosition with
  | some t, some operation, some pos =>
      let c := dragCandidate operation pos msPerPixel clientX
      ⟨some { t with start := c.1, endTime := c.2 }, some operation, some pos⟩
  | _, _, _ => st

/-- One reschedule emission: the arguments of an `onJobTimeUpdate` call
(GanttChart.tsx line 183). -/
structure Emission where
  job_id : String
  start : ℚ
  endTime : ℚ
  deriving Repr, DecidableEq

/-- `handleDragEnd` (GanttChart.tsx lines 179-188): emits once when both a
dragged task and an operation are present, then clears both (the anchor
`dragStartPosition` is left in place by the source). -/
def handleDragEnd (st : DragState) : DragState × List Emission :=
  match st.draggedTask, st.dragOperation with
  | some t, some _ =>
      (⟨none, none, st.dragStartPosition⟩, [⟨t.job_id, t.start, t.endTime⟩])
  | _, _ => (⟨none, none, st.dragStartPosition⟩, [])

/-- Pointer events entering the drag controller: `down` is a pointer-down on
a task handle (`onMouseDown` → `handleDragStart`), `move` is a captured
global pointer move carrying the current `msPerPixel`, `up` is the captured
global pointer-up (`handleMouseUp` → `handleDragEnd`), and `cancel` is a
teardown while a gesture is active — the effect cleanup (GanttChart.tsx
lines 377-382) removes the listeners and the session state is discarded
without any emission. -/
inductive PointerEvent where
  | down (task : GanttTask) (operation : DragOperation) (clientX : ℚ)
  | move (clientX msPerPixel : ℚ)
  | up
  | cancel
  deriving Repr

/-- One event step of the drag controller. -/
def dragStep (st : DragState) : PointerEvent → DragState × List Emission
  | .down task operation clientX => (handleDragStart task operation clientX, [])
  | .move clientX msPerPixel => (handleDrag st msPerPixel clientX, [])
  | .up => handleDragEnd st
  | .cancel => (idleState, [])

/-- Run a sequence of pointer events, collecting reschedule emissions in
order. -/
def dragRun (st : DragState) : List PointerEvent → DragState × List Emission
  | [] => (st, [])
  | e :: es =>
      let r1 := dragStep st e
      let r2 := dragRun r1.1 es
      (r2.1, r1.2 ++ r2.2)

/-- The geometry source used when rendering a task (GanttChart.tsx line
508): the dragged copy when this task is the one being dragged, else the
committed task. -/
def renderTask (task : GanttTask) (st : DragState) : GanttTask :=
  match st.draggedTask with
  | some d => if d.id = task.id then d else task
  | none => task

/-- Times after a sequence of pointer moves: each move recomputes the
candidate from the fixed anchor, so the result is the last candidate (or
the input times when no move occurred). -/
def movesTimes (operation : DragOperation) (pos : DragStartPosition) :
    ℚ × ℚ → List (ℚ × ℚ) → ℚ × ℚ
  | t, [] => t
  | _, (clientX, msPerPixel) :: ms =>
      movesTimes operation pos (dragCandidate operation pos msPerPixel clientX) ms

/-- The final candidate times of a gesture that pressed at `anchorX` on
`task` and then processed `moves` (pairs of `clientX` and `msPerPixel`). -/
def finalTimes (task : GanttTask) (operation : DragOperation) (anchorX : ℚ)
    (moves : List (ℚ × ℚ)) : ℚ × ℚ :=
  movesTimes operation ⟨anchorX, task.start, task.endTime⟩
    (task.start, task.endTime) moves

lemma dragRun_moves (operation : DragOperation) (pos : DragStartPosition)
    (t : GanttTask) (moves : List (ℚ × ℚ)) :
    dragRun ⟨some t, some operation, some pos⟩
        (moves.map fun p => PointerEvent.move p.1 p.2)
      = (⟨some { t with
                  start := (movesTimes operation pos (t.start, t.endTime) moves).1,
                  endTime := (movesTimes operation pos (t.start, t.endTime) moves).2 },
          some operation, some pos⟩, []) := by
  induction moves generalizing t with
  | nil => simp [dragRun, movesTimes]
  | cons m ms ih =>
      obtain ⟨clientX, msPerPixel⟩ := m
      simp only [List.map_cons, dragRun, dragStep, handleDrag, movesTimes]
      rw [ih]
      simp

lemma dragRun_append (st : DragState) (l1 l2 : List PointerEvent) :
    dragRun st (l1 ++ l2)
      = ((dragRun (dragRun st l1).1 l2).1,
         (dragRun st l1).2 ++ (dragRun (dragRun st l1).1 l2).2) := by
  induction l1 generalizing st with
  | nil => simp [dragRun]
  | cons e es ih => simp [dragRun, ih]

/-- The emissions of one complete gesture: exactly one, carrying the
borrowed `job_id` and the final candidate times. -/
lemma gesture_emissions (task : GanttTask) (operation : DragOperation)
    (anchorX : ℚ) (moves : List (ℚ × ℚ)) :
    (dragRun idleState (.down task operation anchorX
        :: ((moves.map fun p => PointerEvent.move p.1 p.2) ++ [.up]))).2
      = [⟨task.job_id, (finalTimes task operation anchorX moves).1,
          (finalTimes task operation anchorX moves).2⟩] := by
  simp only [dragRun, dragStep, handleDragStart, dragRun_append, dragRun_moves,
    finalTimes, handleDragEnd, List.nil_append, List.append_nil]

lemma dragCandidate_resize_le (operation : DragOperation)
    (hop : operation = .resizeStart ∨ operation = .resizeEnd)
    (pos : DragStartPosition) (msPerPixel clientX : ℚ) :
    (dragCandidate operation pos msPerPixel clientX).1
      ≤ (dragCandidate operation pos msPerPixel clientX).2 := by
  rcases hop with h | h <;> subst h <;> simp only [dragCandidate] <;>
    split_ifs <;> simp_all

lemma movesTimes_resize_le (operation : DragOperation)
    (hop : operation = .resizeStart ∨ operation = .resizeEnd)
    (pos : DragStartPosition) (moves : List (ℚ × ℚ)) :
    ∀ t : ℚ × ℚ, moves ≠ [] →
      (movesTimes operation pos t moves).1 ≤ (movesTimes operation pos t moves).2 := by
  induction moves with
  | nil => intro t h; exact absurd rfl h
  | cons m ms ih =>
      intro t _
      obtain ⟨clientX, msPerPixel⟩ := m
      by_cases hms : ms = []
      · subst hms
        simp only [movesTimes]
        exact dragCandidate_resize_le operation hop pos msPerPixel clientX
      · simp only [movesTimes]
        exact ih _ hms

/-- C3: a resize-start changes only `start` (the end stays at the anchor
snapshot) and clamps `start` to `end` when the candidate would exceed it; a
resize-end changes only `end` and clamps symmetrically; hence the committed
emission of every resize gesture with at least one pointer move satisfies
`start ≤ end` — a zero-width range is permitted, an inverted one is not. -/
theorem resize_clamp_invariant (pos : DragStartPosition) (msPerPixel clientX : ℚ)
    (task : GanttTask) (operation : DragOperation) (anchorX : ℚ)
    (moves : List (ℚ × ℚ)) (hmoves : moves ≠ [])
    (hop : operation = .resizeStart ∨ operation = .resizeEnd) :
    (dragCandidate .resizeStart pos msPerPixel clientX).2 = pos.endDate ∧
    (pos.startDate + (clientX - pos.x) * msPerPixel > pos.endDate →
      (dragCandidate .resizeStart pos msPerPixel clientX).1 = pos.endDate) ∧
    (dragCandidate .resizeEnd pos msPerPixel clientX).1 = pos.startDate ∧
    (pos.endDate + (clientX - pos.x) * msPerPixel < pos.startDate →
      (dragCandidate .resizeEnd pos msPerPixel clientX).2 = pos.startDate) ∧
    ∀ e ∈ (dragRun idleState (.down task operation anchorX
        :: ((moves.map fun p => PointerEvent.move p.1 p.2) ++ [.up]))).2,
      e.start ≤ e.endTime := by
  refine ⟨by simp [dragCandidate], ?_, by simp [dragCandidate], ?_, ?_⟩
  · intro h
    simp [dragCandidate, if_pos h]
  · intro h
    simp [dragCandidate, if_pos h]
  · intro e he
    rw [gesture_emissions] at he
    simp only [List.mem_singleton] at he
    subst he
    exact movesTimes_resize_le operation hop _ moves _ hmoves

/-- A concrete task used in witnesses and counterexamples. -/
def taskA : GanttTask := ⟨"task-1", "1", "1 - A", 0, 3600000⟩

/-- A second concrete task, distinct from `taskA`. -/
def taskB : GanttTask := ⟨"task-2", "2", "2 - B", 7200000, 10800000⟩

/-- Witness for C3: a concrete resize-start gesture with one pointer move. -/
theorem resize_clamp_invariant_witness :
    (dragCandidate .resizeStart ⟨0, 0, 3600000⟩ 1 10).2 = (3600000 : ℚ) ∧
    ((0 : ℚ) + ((10 : ℚ) - 0) * 1 > (3600000 : ℚ) →
      (dragCandidate .resizeStart ⟨0, 0, 3600000⟩ 1 10).1 = (3600000 : ℚ)) ∧
    (dragCandidate .resizeEnd ⟨0, 0, 3600000⟩ 1 10).1 = (0 : ℚ) ∧
    ((3600000 : ℚ) + ((10 : ℚ) - 0) * 1 < (0 : ℚ) →
      (dragCandidate .resizeEnd ⟨0, 0, 3600000⟩ 1 10).2 = (0 : ℚ)) ∧
    ∀ e ∈ (dragRun idleState (.down taskA .resizeStart 0
        :: ((([((10 : ℚ), (1 : ℚ))]).map fun p => PointerEvent.move p.1 p.2)
            ++ [.up]))).2,
      e.start ≤ e.endTime :=
  resize_clamp_invariant ⟨0, 0, 3600000⟩ 1 10 taskA .resizeStart 0
    [(10, 1)] (by simp) (Or.inl rfl)

/-- C4: a completed gesture (down, moves, up) invokes the reschedule
callback exactly once, with the task's borrowed `job_id` and the final
candidate times; nothing is emitted while the drag is still in progress; a
cancelled gesture emits nothing and the task's rendered geometry reverts to
its committed values. -/
theorem gesture_single_emission (task : GanttTask) (operation : DragOperation)
    (anchorX : ℚ) (moves : List (ℚ × ℚ)) :
    (dragRun idleState (.down task operation anchorX
        :: ((moves.map fun p => PointerEvent.move p.1 p.2) ++ [.up]))).2
      = [⟨task.job_id, (finalTimes task operation anchorX moves).1,
          (finalTimes task operation anchorX moves).2⟩] ∧
    (dragRun idleState (.down task operation anchorX
        :: (moves.map fun p => PointerEvent.move p.1 p.2))).2 = [] ∧
    (dragRun idleState (.down task operation anchorX
        :: ((moves.map fun p => PointerEvent.move p.1 p.2) ++ [.cancel]))).2 = [] ∧
    renderTask task (dragRun idleState (.down task operation anchorX
        :: ((moves.map fun p => PointerEvent.move p.1 p.2) ++ [.cancel]))).1
      = task := by
  refine ⟨gesture_emissions task operation anchorX moves, ?_, ?_, ?_⟩
  · simp [dragRun, dragStep, handleDragStart, dragRun_moves]
  · simp [dragRun, dragStep, handleDragStart, dragRun_append, dragRun_moves]
  · simp [dragRun, dragStep, handleDragStart, dragRun_append, dragRun_moves,
      renderTask, idleState]

/-- C10: a pointer-down on a task handle followed by a pointer-up with no
intervening move still emits exactly one reschedule, carrying the times the
task had at pointer-down. -/
theorem zero_movement_press_commits (task : GanttTask) (operation : DragOperation)
    (anchorX : ℚ) :
    (dragRun idleState [.down task operation anchorX, .up]).2
      = [⟨task.job_id, task.start, task.endTime⟩] := by
  simp [dragRun, dragStep, handleDragStart, handleDragEnd]

/-- C6 counterexample: a second pointer-down while a drag session is active
does not leave the controller state unchanged — it replaces the captured
snapshot and anchor with the new task's. -/
theorem second_down_replaces_session_counterexample :
    (dragRun idleState [.down taskA .move 0, .down taskB .resizeEnd 5]).1
      ≠ (dragRun idleState [.down taskA .move 0]).1 := by
  decide

/-- C6 amended: a pointer-down always installs a fresh session (so a second
down while dragging replaces the snapshot, operation and anchor instead of
being ignored), while a pointer move with no preceding pointer-down leaves
the idle controller unchanged and emits nothing. -/
theorem reentrant_down_replaces_and_stray_move_ignored (st : DragState)
    (task : GanttTask) (operation : DragOperation) (clientX x msPerPixel : ℚ) :
    (dragStep st (.down task operation clientX)).1
        = ⟨some task, some operation, some ⟨clientX, task.start, task.endTime⟩⟩ ∧
    dragStep idleState (.move x msPerPixel) = (idleState, []) :=
  ⟨rfl, rfl⟩

/-- C5 counterexample: neither operation clamps.  A single pan moves the
domain start to 3.6·10^17 ms — beyond `now + 50 years` for every instant a
JavaScript `Date` can represent (|t| ≤ 8.64·10^15 ms, so `now + 50 years`
is below 10^16 ms) — and a single zoom shrinks the whole domain width below
10^-20 ms, past any configured minimum granularity. -/
theorem pan_zoom_unclamped_counterexample :
    (10 : ℚ) ^ 16 < (handlePan ⟨0, 3600000⟩ 100 (-(10 ^ 13))).domainStart ∧
    domainWidth (handleZoom ⟨0, 3600000⟩ 1000 (10 ^ 30) 500) < 1 / 10 ^ 20 := by
  constructor <;> norm_num [handlePan, handleZoom, domainWidth]

/-- C5 amended: pan and zoom requests are applied exactly as computed, with
no clamping at all: `handlePan` shifts both bounds by exactly
`-deltaPx · (domainWidth/xMax)` for every delta, and `handleZoom` sets the
width to exactly `domainWidth/scaleFactor` for every nonzero scale factor;
no minimum/maximum zoom and no ±50-year absolute bound is enforced on the
visible domain. -/
theorem pan_zoom_apply_exactly_unclamped (vd : Viewport)
    (xMax deltaPx scaleFactor centerPx : ℚ) (hs : scaleFactor ≠ 0) :
    (handlePan vd xMax deltaPx).domainStart
        = vd.domainStart + (-deltaPx * (domainWidth vd / xMax)) ∧
    (handlePan vd xMax deltaPx).domainEnd
        = vd.domainEnd + (-deltaPx * (domainWidth vd / xMax)) ∧
    domainWidth (handleZoom vd xMax scaleFactor centerPx)
        = domainWidth vd / scaleFactor :=
  ⟨rfl, rfl, by simp only [domainWidth, handleZoom]; ring⟩

/-- Witness for the amended C5 at a concrete viewport, delta and scale. -/
theorem pan_zoom_apply_exactly_unclamped_witness :
    (handlePan ⟨0, 3600000⟩ 1000 10).domainStart
        = 0 + (-10 * (domainWidth ⟨0, 3600000⟩ / 1000)) ∧
    (handlePan ⟨0, 3600000⟩ 1000 10).domainEnd
        = 3600000 + (-10 * (domainWidth ⟨0, 3600000⟩ / 1000)) ∧
    domainWidth (handleZoom ⟨0, 3600000⟩ 1000 4 250)
        = domainWidth ⟨0, 3600000⟩ / 4 :=
  pan_zoom_apply_exactly_unclamped ⟨0, 3600000⟩ 1000 10 4 250 (by norm_num)

/-- The visx zoom transform matrix, with the fields the chart sets
(GanttChart.tsx lines 401-408). -/
structure TransformMatrix where
  scaleX : ℚ
  scaleY : ℚ
  translateX : ℚ
  translateY : ℚ
  skewX : ℚ
  skewY : ℚ
  deriving Repr, DecidableEq

/-- The chart state read by the render pass: the controlled `visibleDomain`
and the visx `Zoom` transform matrix.  The effect that synced the domain
from the matrix was removed (comment at GanttChart.tsx line 270), so the
two are independent. -/
structure ChartState where
  visibleDomain : Option Viewport
  transformMatrix : TransformMatrix
  deriving Repr, DecidableEq

/-- The domain of `zoomedXScale` (GanttChart.tsx lines 317-323): the
controlled `visibleDomain` when set, else the ±50-year `hugeDomain`.  The
transform matrix is not consulted. -/
def zoomedXScaleDomain (st : ChartState) (hugeDomain : Viewport) : Viewport :=
  match st.visibleDomain with
  | some vd => vd
  | none => hugeDomain

/-- Bar geometry of a task in the render pass (GanttChart.tsx lines
511-512): `x = zoomedXScale(start)` and `width = zoomedXScale(end) - x`. -/
def barGeometry (st : ChartState) (hugeDomain : Viewport) (xMax : ℚ)
    (task : GanttTask) : ℚ × ℚ :=
  let scale := zoomedXScaleDomain st hugeDomain
  let x := toPixel scale xMax task.start
  (x, toPixel scale xMax task.endTime - x)

/-- A discrete Zoom button click (GanttChart.tsx lines 436-461): it calls
`zoom.scale`, which updates only the visx transform matrix and never calls
`setVisibleDomain`.  The matrix update is abstracted as an arbitrary
function, covering whatever `zoom.scale` computes. -/
def buttonZoomClick (matrixUpdate : TransformMatrix → TransformMatrix)
    (st : ChartState) : ChartState :=
  { st with transformMatrix := matrixUpdate st.transformMatrix }

/-- C9, evaluated on the code: clicking a discrete Zoom plus/minus button leaves
the visible domain, the rendered scale's domain and width, and every bar's
geometry unchanged — whatever matrix update `zoom.scale` performs — because
the render pass reads only `visibleDomain`.  The claimed center-anchored
rescale of the rendered domain therefore never happens. -/
theorem discrete_zoom_buttons_do_not_rescale
    (matrixUpdate : TransformMatrix → TransformMatrix) (st : ChartState)
    (hugeDomain : Viewport) (xMax : ℚ) (task : GanttTask) :
    (buttonZoomClick matrixUpdate st).visibleDomain = st.visibleDomain ∧
    zoomedXScaleDomain (buttonZoomClick matrixUpdate st) hugeDomain
        = zoomedXScaleDomain st hugeDomain ∧
    barGeometry (buttonZoomClick matrixUpdate st) hugeDomain xMax task
        = barGeometry st hugeDomain xMax task ∧
    domainWidth (zoomedXScaleDomain (buttonZoomClick matrixUpdate st) hugeDomain)
        = domainWidth (zoomedXScaleDomain st hugeDomain) :=
  ⟨rfl, rfl, rfl, rfl⟩

/-- The fit-related React state of the chart: the controlled domain and the
`initialFitted` flag (GanttChart.tsx lines 255-256). -/
structure FitState where
  visibleDomain : Option Viewport
  initialFitted : Bool
  deriving Repr, DecidableEq

/-- The initial-fit effect (GanttChart.tsx lines 259-268): when the chart
has not fitted yet, holds no domain, and the task list is non-empty, set
the visible domain to `[min start − 3 days, max end + 3 days]` and mark the
chart fitted.  `Math.min`/`Math.max` over the mapped times are embedded as
list folds. -/
def initialFitEffect (ganttTasks : List GanttTask) (st : FitState) : FitState :=
  if st.initialFitted then st
  else if st.visibleDomain.isSome then st
  else
    match ganttTasks with
    | [] => st
    | t :: ts =>
        let minDate := (ts.map (·.start)).foldl min t.start
        let maxDate := (ts.map (·.endTime)).foldl max t.endTime
        ⟨some ⟨minDate - 3 * 24 * 60 * 60 * 1000, maxDate + 3 * 24 * 60 * 60 * 1000⟩,
         true⟩

lemma foldl_min_le (l : List ℚ) : ∀ a x : ℚ, (x = a ∨ x ∈ l) → l.foldl min a ≤ x := by
  induction l with
  | nil =>
      intro a x hx
      rcases hx with rfl | h
      · exact le_refl _
      · cases h
  | cons b l ih =>
      intro a x hx
      simp only [List.foldl_cons]
      have hseed : List.foldl min (min a b) l ≤ min a b :=
        ih (min a b) (min a b) (Or.inl rfl)
      rcases hx with h | h
      · exact le_trans hseed (le_trans (min_le_left _ _) (le_of_eq h.symm))
      · rcases List.mem_cons.mp h with h' | hmem
        · exact le_trans hseed (le_trans (min_le_right _ _) (le_of_eq h'.symm))
        · exact ih (min a b) x (Or.inr hmem)

lemma foldl_min_mem (l : List ℚ) : ∀ a : ℚ, l.foldl min a = a ∨ l.foldl min a ∈ l := by
  induction l with
  | nil => intro a; exact Or.inl rfl
  | cons b l ih =>
      intro a
      simp only [List.foldl_cons]
      rcases ih (min a b) with h | h
      · rw [h]
        rcases le_total a b with hab | hab
        · exact Or.inl (min_eq_left hab)
        · exact Or.inr (by rw [min_eq_right hab]; exact List.mem_cons_self b l)
      · exact Or.inr (List.mem_cons_of_mem b h)

lemma le_foldl_max (l : List ℚ) : ∀ a x : ℚ, (x = a ∨ x ∈ l) → x ≤ l.foldl max a := by
  induction l with
  | nil =>
      intro a x hx
      rcases hx with rfl | h
      · exact le_refl _
      · cases h
  | cons b l ih =>
      intro a x hx
      simp only [List.foldl_cons]
      have hseed : max a b ≤ List.foldl max (max a b) l :=
        ih (max a b) (max a b) (Or.inl rfl)
      rcases hx with h | h
      · exact le_trans (le_of_eq h) (le_trans (le_max_left _ _) hseed)
      · rcases List.mem_cons.mp h with h' | hmem
        · exact le_trans (le_of_eq h') (le_trans (le_max_right _ _) hseed)
        · exact ih (max a b) x (Or.inr hmem)

lemma foldl_max_mem (l : List ℚ) : ∀ a : ℚ, l.foldl max a = a ∨ l.foldl max a ∈ l := by
  induction l with
  | nil => intro a; exact Or.inl rfl
  | cons b l ih =>
      intro a
      simp only [List.foldl_cons]
      rcases ih (max a b) with h | h
      · rw [h]
        rcases le_total a b with hab | hab
        · exact Or.inr (by rw [max_eq_right hab]; exact List.mem_cons_self b l)
        · exact Or.inl (max_eq_left hab)
      · exact Or.inr (List.mem_cons_of_mem b h)

/-- C7: on a fresh chart (no domain, not yet fitted) with a non-empty task
list, the initial visible domain is `[min start − 3 days, max end + 3
days]`: the chart becomes fitted, every task sits inside the domain with 3
days (259200000 ms) of slack, and both padded bounds are attained by some
task; moreover three tasks spanning 2024-03-01 to 2024-03-10 UTC produce
the domain 2024-02-27 to 2024-03-13 UTC. -/
theorem initial_fit_pads_three_days (t0 : GanttTask) (ts : List GanttTask) :
    (∃ vd : Viewport,
      (initialFitEffect (t0 :: ts) ⟨none, false⟩).visibleDomain = some vd ∧
      (initialFitEffect (t0 :: ts) ⟨none, false⟩).initialFitted = true ∧
      (∀ task ∈ t0 :: ts,
        vd.domainStart ≤ task.start - 259200000 ∧
        task.endTime + 259200000 ≤ vd.domainEnd) ∧
      (∃ a ∈ t0 :: ts, vd.domainStart = a.start - 259200000) ∧
      (∃ b ∈ t0 :: ts, vd.domainEnd = b.endTime + 259200000)) ∧
    (initialFitEffect
        [⟨"task-j1", "j1", "n1", 1709251200000, 1709424000000⟩,
         ⟨"task-j2", "j2", "n2", 1709596800000, 1709769600000⟩,
         ⟨"task-j3", "j3", "n3", 1709856000000, 1710028800000⟩]
        ⟨none, false⟩).visibleDomain
      = some ⟨1708992000000, 1710288000000⟩ := by
  constructor
  · refine ⟨⟨(ts.map (·.start)).foldl min t0.start - 259200000,
             (ts.map (·.endTime)).foldl max t0.endTime + 259200000⟩,
      by norm_num [initialFitEffect], by norm_num [initialFitEffect], ?_, ?_, ?_⟩
    · intro task htask
      have h1 : (ts.map (·.start)).foldl min t0.start ≤ task.start := by
        apply foldl_min_le
        rcases List.mem_cons.mp htask with h | hmem
        · exact Or.inl (by rw [h])
        · exact Or.inr (List.mem_map_of_mem (·.start) hmem)
      have h2 : task.endTime ≤ (ts.map (·.endTime)).foldl max t0.endTime := by
        apply le_foldl_max
        rcases List.mem_cons.mp htask with h | hmem
        · exact Or.inl (by rw [h])
        · exact Or.inr (List.mem_map_of_mem (·.endTime) hmem)
      exact ⟨by dsimp only; linarith, by dsimp only; linarith⟩
    · rcases foldl_min_mem (ts.map (·.start)) t0.start with h | h
      · exact ⟨t0, List.mem_cons_self t0 ts, by dsimp only; rw [h]⟩
      · rcases List.mem_map.mp h with ⟨a, ha, hae⟩
        exact ⟨a, List.mem_cons_of_mem t0 ha, by dsimp only; rw [hae]⟩
    · rcases foldl_max_mem (ts.map (·.endTime)) t0.endTime with h | h
      · exact ⟨t0, List.mem_cons_self t0 ts, by dsimp only; rw [h]⟩
      · rcases List.mem_map.mp h with ⟨b, hb, hbe⟩
        exact ⟨b, List.mem_cons_of_mem t0 hb, by dsimp only; rw [hbe]⟩
  · norm_num [initialFitEffect, min_def, max_def]

/-- Witness for C7: the theorem instantiated at the three scenario tasks. -/
theorem initial_fit_pads_three_days_witness :
    (∃ vd : Viewport,
      (initialFitEffect
          (⟨"task-j1", "j1", "n1", 1709251200000, 1709424000000⟩ ::
            [⟨"task-j2", "j2", "n2", 1709596800000, 1709769600000⟩,
             ⟨"task-j3", "j3", "n3", 1709856000000, 1710028800000⟩])
          ⟨none, false⟩).visibleDomain = some vd ∧
      (initialFitEffect
          (⟨"task-j1", "j1", "n1", 1709251200000, 1709424000000⟩ ::
            [⟨"task-j2", "j2", "n2", 1709596800000, 1709769600000⟩,
             ⟨"task-j3", "j3", "n3", 1709856000000, 1710028800000⟩])
          ⟨none, false⟩).initialFitted = true ∧
      (∀ task ∈ (⟨"task-j1", "j1", "n1", 1709251200000, 1709424000000⟩ ::
            [⟨"task-j2", "j2", "n2", 1709596800000, 1709769600000⟩,
             ⟨"task-j3", "j3", "n3", 1709856000000, 1710028800000⟩] :
            List GanttTask),
        vd.domainStart ≤ task.start - 259200000 ∧
        task.endTime + 259200000 ≤ vd.domainEnd) ∧
      (∃ a ∈ (⟨"task-j1", "j1", "n1", 1709251200000, 1709424000000⟩ ::
            [⟨"task-j2", "j2", "n2", 1709596800000, 1709769600000⟩,
             ⟨"task-j3", "j3", "n3", 1709856000000, 1710028800000⟩] :
            List GanttTask), vd.domainStart = a.start - 259200000) ∧
      (∃ b ∈ (⟨"task-j1", "j1", "n1", 1709251200000, 1709424000000⟩ ::
            [⟨"task-j2", "j2", "n2", 1709596800000, 1709769600000⟩,
             ⟨"task-j3", "j3", "n3", 1709856000000, 1710028800000⟩] :
            List GanttTask), vd.domainEnd = b.endTime + 259200000)) ∧
    (initialFitEffect
        [⟨"task-j1", "j1", "n1", 1709251200000, 1709424000000⟩,
         ⟨"task-j2", "j2", "n2", 1709596800000, 1709769600000⟩,
         ⟨"task-j3", "j3", "n3", 1709856000000, 1710028800000⟩]
        ⟨none, false⟩).visibleDomain
      = some ⟨1708992000000, 1710288000000⟩ :=
  initial_fit_pads_three_days
    ⟨"task-j1", "j1", "n1", 1709251200000, 1709424000000⟩
    [⟨"task-j2", "j2", "n2", 1709596800000, 1709769600000⟩,
     ⟨"task-j3", "j3", "n3", 1709856000000, 1710028800000⟩]

/-- The three tick policies the primary axis chooses between
(GanttChart.tsx lines 619-633): `timeMinute.every(5)`, `timeHour.every(1)`,
or the scale's default "nice" ticks. -/
inductive TickChoice where
  | everyFiveMinutes
  | everyHour
  | defaultTicks
  deriving Repr, DecidableEq

/-- Tick spacing in ms of a policy; `none` means the scale's own default
spacing. -/
def tickStepMs : TickChoice → Option ℚ
  | .everyFiveMinutes => some 300000
  | .everyHour => some 3600000
  | .defaultTicks => none

/-- The primary axis resolution selected from the visible domain width
(`tickValues`, GanttChart.tsx lines 619-633). -/
def primaryTickChoice (widthMs : ℚ) : TickChoice :=
  if widthMs < 2 * 60 * 60 * 1000 then .everyFiveMinutes
  else if widthMs < 24 * 60 * 60 * 1000 then .everyHour
  else .defaultTicks

/-- `padStart(2, '0')` applied to the decimal string of a time component. -/
def pad2 (n : ℕ) : String :=
  let s := toString n
  if s.length < 2 then "0" ++ s else s

/-- The primary axis `tickFormat` (GanttChart.tsx lines 634-645), given the
domain width and the tick date's hour and minute components. -/
def primaryTickLabel (widthMs : ℚ) (hours minutes : ℕ) : String :=
  if widthMs < 2 * 60 * 60 * 1000 then pad2 hours ++ ":" ++ pad2 minutes
  else toString hours ++ ":00"

/-- The day axis `tickFormat` (GanttChart.tsx lines 659-662): the
day-of-month as a decimal string.  It does not read the domain width. -/
def dayTickLabel (dayOfMonth : ℕ) : String := toString dayOfMonth

/-- The abbreviated English month names produced by
`Intl.DateTimeFormat` with `month: 'short'` (GanttChart.tsx line 676). -/
def monthAbbreviations : List String :=
  ["Jan", "Feb", "Mar", "Apr", "May", "Jun",
   "Jul", "Aug", "Sep", "Oct", "Nov", "Dec"]

/-- The month axis `tickFormat` (GanttChart.tsx lines 674-677), given the
tick date's zero-based month index.  It does not read the domain width. -/
def monthTickLabel (monthIndex : ℕ) : String :=
  monthAbbreviations.getD monthIndex ""

/-- The day axis passes no `tickValues` (GanttChart.tsx lines 653-668), so
it always uses the scale's default ticks, independent of the width. -/
def dayAxisTickChoice (_widthMs : ℚ) : TickChoice := .defaultTicks

/-- The month axis passes no `tickValues` (GanttChart.tsx lines 670-686),
so it always uses the scale's default ticks, independent of the width. -/
def monthAxisTickChoice (_widthMs : ℚ) : TickChoice := .defaultTicks

/-- C8: the primary axis selects exactly one resolution from the domain
width — 5-minute ticks labeled `HH:MM` below 2 hours, hourly ticks labeled
`H:00` between 2 and 24 hours, default nice ticks above — while the day
axis (day-of-month labels) and the month axis (abbreviated month labels)
keep their own width-independent tick policies. -/
theorem primary_axis_resolution_selection (widthMs : ℚ) :
    (widthMs < 7200000 →
      primaryTickChoice widthMs = .everyFiveMinutes ∧
      tickStepMs (primaryTickChoice widthMs) = some 300000 ∧
      ∀ h m : ℕ, primaryTickLabel widthMs h m = pad2 h ++ ":" ++ pad2 m) ∧
    (7200000 ≤ widthMs → widthMs < 86400000 →
      primaryTickChoice widthMs = .everyHour ∧
      tickStepMs (primaryTickChoice widthMs) = some 3600000 ∧
      ∀ h m : ℕ, primaryTickLabel widthMs h m = toString h ++ ":00") ∧
    (86400000 ≤ widthMs →
      primaryTickChoice widthMs = .defaultTicks ∧
      tickStepMs (primaryTickChoice widthMs) = none) ∧
    (∀ w' : ℚ, dayAxisTickChoice widthMs = dayAxisTickChoice w' ∧
      monthAxisTickChoice widthMs = monthAxisTickChoice w') ∧
    primaryTickLabel 3600000 9 5 = "09:05" ∧
    primaryTickLabel 10800000 9 0 = "9:00" ∧
    dayTickLabel 27 = "27" ∧ monthTickLabel 2 = "Mar" := by
  have hw1 : (3600000 : ℚ) < 2 * 60 * 60 * 1000 := by norm_num
  have hw2 : ¬((10800000 : ℚ) < 2 * 60 * 60 * 1000) := by norm_num
  refine ⟨?_, ?_, ?_, fun w' => ⟨rfl, rfl⟩,
    by simp only [primaryTickLabel, if_pos hw1]; decide,
    by simp only [primaryTickLabel, if_neg hw2]; decide, rfl, rfl⟩
  · intro h
    have h' : widthMs < 2 * 60 * 60 * 1000 := by linarith
    refine ⟨?_, ?_, ?_⟩ <;>
      simp [primaryTickChoice, primaryTickLabel, tickStepMs, if_pos h']
  · intro h1 h2
    have h1' : ¬widthMs < 2 * 60 * 60 * 1000 := by push_neg; linarith
    have h2' : widthMs < 24 * 60 * 60 * 1000 := by linarith
    refine ⟨?_, ?_, ?_⟩ <;>
      simp [primaryTickChoice, primaryTickLabel, tickStepMs, if_neg h1', if_pos h2']
  · intro h
    have h1' : ¬widthMs < 2 * 60 * 60 * 1000 := by push_neg; linarith
    have h2' : ¬widthMs < 24 * 60 * 60 * 1000 := by push_neg; linarith
    constructor <;> simp [primaryTickChoice, tickStepMs, if_neg h1', if_neg h2']

/-- Witness for C8: a 1-hour domain selects 5-minute ticks and a 3-day
domain selects the default ticks. -/
theorem primary_axis_resolution_selection_witness :
    primaryTickChoice 3600000 = .everyFiveMinutes ∧
    primaryTickChoice 259200000 = .defaultTicks :=
  ⟨((primary_axis_resolution_selection 3600000).1 (by norm_num)).1,
   ((primary_axis_resolution_selection 259200000).2.2.1 (by norm_num)).1⟩

end Gantt
